import Mathlib

/-!
Shallow embedding of `mautrix_signal/db/puppet.py`: the puppet identity
registry, its reconciliation operations (`_set_uuid`, `_set_number`,
`_update_number_to_uuid`), the activity tracker (`update_activity_ts`),
the lookup `get_by_address`, the row update `update`, and the aggregate
query `recently_active_count`.

Database tables are modelled as lists of rows; SQL `UPDATE`/`DELETE`
statements become `List.map`/`List.filter` with predicates following SQL
three-valued logic: a comparison against `NULL` is unknown, so the row is
not selected.  UUID values are modelled as opaque strings; Python's
`str(uuid)` is the identity on them and `str(None) = "None"`.
-/

namespace MautrixSignal

abbrev Str := String

/-- SQL equality of two nullable columns/parameters: `a = b` selects a row
only when both sides are non-NULL and equal (`NULL = x` is unknown). -/
def sqlEqOpt (a b : Option Str) : Bool :=
  match a, b with
  | some x, some y => decide (x = y)
  | _, _ => false

/-- SQL inequality `a <> b`: true only when both sides are non-NULL and
differ (`NULL <> x` is unknown, so the row is not selected). -/
def sqlNeOpt (a b : Option Str) : Bool :=
  match a, b with
  | some x, some y => decide (x ≠ y)
  | _, _ => false

/-- SQL equality of a non-nullable column against a nullable parameter:
`col = $p` selects the row only when the parameter is non-NULL and equal. -/
def sqlEqParam (col : Str) (param : Option Str) : Bool :=
  match param with
  | some v => decide (col = v)
  | none => false

/-- Python `str(...)` applied to an optional UUID: `str(None) = "None"`,
otherwise the UUID's string form (UUIDs are modelled as strings). -/
def uuidStr (u : Option Str) : Str :=
  match u with
  | some s => s
  | none => "None"

/-- One row of the `puppet` table, and also the in-memory `Puppet`
dataclass (same fields, in source order). -/
structure Puppet where
  uuid : Option Str
  number : Option Str
  name : Option Str
  avatar_hash : Option Str
  avatar_url : Option Str
  name_set : Bool
  avatar_set : Bool
  uuid_registered : Bool
  number_registered : Bool
  custom_mxid : Option Str
  access_token : Option Str
  next_batch : Option Str
  base_url : Option Str
  first_activity_ts : Option Int
  last_activity_ts : Option Int
deriving Repr, DecidableEq

/-- One row of the `portal` table: its chat key plus an opaque payload
standing for the remaining columns (so deletion and repointing are
distinguishable). `chat_id` carries a unique constraint. -/
structure PortalRow where
  chat_id : Str
  payload : Nat
deriving Repr, DecidableEq

/-- One row of the `message` table: sender key plus opaque payload. -/
structure MessageRow where
  sender : Str
  payload : Nat
deriving Repr, DecidableEq

/-- One row of the `reaction` table: author key plus opaque payload. -/
structure ReactionRow where
  author : Str
  payload : Nat
deriving Repr, DecidableEq

/-- The persisted database state: the puppet table and the three
dependent tables touched by reconciliation. -/
@[ext]
structure DbState where
  puppet : List Puppet
  portal : List PortalRow
  message : List MessageRow
  reaction : List ReactionRow
deriving Repr, DecidableEq

/-- `ONE_DAY_MS = 24 * 60 * 60 * 1000` from the source. -/
def ONE_DAY_MS : Int := 24 * 60 * 60 * 1000

/-! ## Dependent repoint step: `Puppet._update_number_to_uuid` -/

/-- The condition under which
`UPDATE portal SET chat_id=$new WHERE chat_id=$old` raises
`UniqueViolationError` given the unique constraint on `portal.chat_id`:
some row actually moves (it matches `old` and differs from `new`) while a
row keyed `new` already exists. -/
def portalConflict (portal : List PortalRow) (old_number : Option Str) (new_uuid : Str) : Bool :=
  (portal.any fun r => sqlEqParam r.chat_id old_number && !(decide (r.chat_id = new_uuid))) &&
    (portal.any fun r => decide (r.chat_id = new_uuid))

/-- The `portal` half of `_update_number_to_uuid`: try
`UPDATE portal SET chat_id=$new WHERE chat_id=$old` inside a savepoint;
on `UniqueViolationError` instead `DELETE FROM portal WHERE chat_id=$old`. -/
def portal_repoint (portal : List PortalRow) (old_number : Option Str) (new_uuid : Str) :
    List PortalRow :=
  if portalConflict portal old_number new_uuid then
    portal.filter fun r => !(sqlEqParam r.chat_id old_number)
  else
    portal.map fun r =>
      if sqlEqParam r.chat_id old_number then { r with chat_id := new_uuid } else r

/-- First stage of `_update_number_to_uuid`: the conversation (portal)
repoint with its conflict fallback. -/
def portal_stage (db : DbState) (old_number : Option Str) (new_uuid : Str) : DbState :=
  { db with portal := portal_repoint db.portal old_number new_uuid }

/-- Second stage of `_update_number_to_uuid`: the unconditional
`UPDATE message SET sender=$new WHERE sender=$old` and
`UPDATE reaction SET author=$new WHERE author=$old`. -/
def message_reaction_stage (db : DbState) (old_number : Option Str) (new_uuid : Str) : DbState :=
  { db with
    message := db.message.map fun m =>
      if sqlEqParam m.sender old_number then { m with sender := new_uuid } else m
    reaction := db.reaction.map fun r =>
      if sqlEqParam r.author old_number then { r with author := new_uuid } else r }

/-- `Puppet._update_number_to_uuid(conn, old_number, new_uuid)`: portal
repoint (with delete-on-conflict fallback) first, then the message and
reaction repoints. -/
def update_number_to_uuid (db : DbState) (old_number : Option Str) (new_uuid : Str) : DbState :=
  message_reaction_stage (portal_stage db old_number new_uuid) old_number new_uuid

/-! ## Reconciliation: `Puppet._set_uuid` and `Puppet._set_number` -/

/-- The two puppet-table statements of `_set_uuid`:
`DELETE FROM puppet WHERE uuid=$1 AND number<>$2` then
`UPDATE puppet SET uuid=$1 WHERE number=$2`. -/
def puppet_delete_update_uuid (tbl : List Puppet) (number : Option Str) (uuid : Str) :
    List Puppet :=
  (tbl.filter fun r => !(sqlEqOpt r.uuid (some uuid) && sqlNeOpt r.number number)).map
    fun r => if sqlEqOpt r.number number then { r with uuid := some uuid } else r

/-- `Puppet._set_uuid(uuid)` where `number` is the in-memory
`self.number`:
`DELETE FROM puppet WHERE uuid=$1 AND number<>$2` (`$1 = uuid`,
`$2 = self.number`), then
`UPDATE puppet SET uuid=$1 WHERE number=$2`, then
`_update_number_to_uuid(conn, self.number, str(uuid))`.
The `uuid` argument is a non-null UUID, so `str(uuid)` is just its
string form. -/
def set_uuid (db : DbState) (number : Option Str) (uuid : Str) : DbState :=
  update_number_to_uuid
    { db with puppet := puppet_delete_update_uuid db.puppet number uuid } number uuid

/-- The two puppet-table statements of `_set_number`:
`DELETE FROM puppet WHERE number=$1 AND uuid<>$2` then
`UPDATE puppet SET number=$1 WHERE uuid=$2`. -/
def puppet_delete_update_number (tbl : List Puppet) (uuid : Option Str) (number : Str) :
    List Puppet :=
  (tbl.filter fun r => !(sqlEqOpt r.number (some number) && sqlNeOpt r.uuid uuid)).map
    fun r => if sqlEqOpt r.uuid uuid then { r with number := some number } else r

/-- `Puppet._set_number(number)` where `uuid` is the in-memory
`self.uuid`:
`DELETE FROM puppet WHERE number=$1 AND uuid<>$2` (`$1 = number`,
`$2 = self.uuid`), then
`UPDATE puppet SET number=$1 WHERE uuid=$2`, then
`_update_number_to_uuid(conn, number, str(self.uuid))` — note the
old-number argument is the NEW number, and `str(self.uuid)` is `"None"`
when `self.uuid` is null. -/
def set_number (db : DbState) (uuid : Option Str) (number : Str) : DbState :=
  update_number_to_uuid
    { db with puppet := puppet_delete_update_number db.puppet uuid number } (some number)
    (uuidStr uuid)

/-! ## Activity tracker: `Puppet.update_activity_ts` -/

/-- `self.last_activity_ts is not None and self.last_activity_ts > activity_ts`. -/
def lastExceeds (last : Option Int) (activity_ts : Int) : Bool :=
  match last with
  | some l => decide (l > activity_ts)
  | none => false

/-- `Puppet.update_activity_ts(activity_ts)`: `now_ms` is
`time.time() * 1000` at the call. Returns the updated in-memory record
and database. Skips when the timestamp is more than 300000 ms
(5 minutes) behind the wall clock, or behind the record's current
`last_activity_ts`; otherwise writes `last_activity_ts` (row selected by
`uuid`), and also `first_activity_ts` when it was unset. -/
def update_activity_ts (now_ms : Int) (p : Puppet) (db : DbState) (activity_ts : Int) :
    Puppet × DbState :=
  if now_ms - activity_ts > 300000 then (p, db)
  else if lastExceeds p.last_activity_ts activity_ts then (p, db)
  else
    let p1 := { p with last_activity_ts := some activity_ts }
    let db1 := { db with
      puppet := db.puppet.map fun r =>
        if sqlEqOpt r.uuid p.uuid then { r with last_activity_ts := some activity_ts } else r }
    if p.first_activity_ts = none then
      ({ p1 with first_activity_ts := some activity_ts },
       { db1 with
         puppet := db1.puppet.map fun r =>
           if sqlEqOpt r.uuid p.uuid then { r with first_activity_ts := some activity_ts }
           else r })
    else (p1, db1)

/-- One activity signal: the wall-clock time at the call and the reported
activity timestamp, both in milliseconds. -/
structure ActivityCall where
  now_ms : Int
  activity_ts : Int
deriving Repr, DecidableEq

/-- Fold a sequence of `update_activity_ts` calls over the in-memory
record and the database. -/
def runActivity (st : Puppet × DbState) (calls : List ActivityCall) : Puppet × DbState :=
  calls.foldl (fun st c => update_activity_ts c.now_ms st.1 st.2 c.activity_ts) st

/-! ## Row update: `Puppet.update` -/

/-- `Puppet._base_url_str`: `str(self.base_url) if self.base_url else None`
(an empty URL is falsy in Python, so it maps to `None`). -/
def base_url_str (base_url : Option Str) : Option Str :=
  match base_url with
  | some s => if s = "" then none else some s
  | none => none

/-- The twelve `SET` columns shared by both branches of `Puppet.update`
(`name=$3 ... base_url=$13`), applied to a selected row `r` from the
in-memory record `p`. -/
def applySetColumns (r p : Puppet) : Puppet :=
  { r with
    name := p.name
    avatar_hash := p.avatar_hash
    avatar_url := p.avatar_url
    name_set := p.name_set
    avatar_set := p.avatar_set
    uuid_registered := p.uuid_registered
    number_registered := p.number_registered
    custom_mxid := p.custom_mxid
    access_token := p.access_token
    next_batch := p.next_batch
    base_url := base_url_str p.base_url }

/-- `Puppet.update()`: when `self.uuid is None` run
`UPDATE puppet SET uuid=$1, <set_columns> WHERE number=$2` (writing a
NULL `uuid`), otherwise
`UPDATE puppet SET number=$2, <set_columns> WHERE uuid=$1`. -/
def update (tbl : List Puppet) (p : Puppet) : List Puppet :=
  match p.uuid with
  | none =>
    tbl.map fun r =>
      if sqlEqOpt r.number p.number then { applySetColumns r p with uuid := none } else r
  | some u =>
    tbl.map fun r =>
      if sqlEqOpt r.uuid (some u) then { applySetColumns r p with number := p.number } else r

/-! ## Lookup: `Puppet.get_by_address` -/

/-- A `mausignald` `Address`: optional UUID and optional number. -/
structure Address where
  uuid : Option Str
  number : Option Str
deriving Repr, DecidableEq

/-- Python truthiness of `address.uuid`: a `UUID` object is always
truthy, so this is just a null check. -/
def truthyUuid (u : Option Str) : Bool :=
  match u with
  | some _ => true
  | none => false

/-- Python truthiness of `address.number`: null and the empty string are
falsy. -/
def truthyNumber (n : Option Str) : Bool :=
  match n with
  | some s => !(decide (s = ""))
  | none => false

/-- The error raised by `get_by_address` on an empty address
(`raise ValueError("Invalid address")`). -/
inductive LookupError where
  | invalidAddress
deriving Repr, DecidableEq

/-- `Puppet.get_by_address(address)`: `WHERE uuid=$1 OR number=$2` when
both components are truthy, `WHERE uuid=$1` when only the UUID is, and
`WHERE number=$1` when only the number is; `ValueError` otherwise.
`fetchrow` is modelled as `List.find?`. -/
def get_by_address (tbl : List Puppet) (addr : Address) : Except LookupError (Option Puppet) :=
  if truthyUuid addr.uuid then
    if truthyNumber addr.number then
      .ok (tbl.find? fun r => sqlEqOpt r.uuid addr.uuid || sqlEqOpt r.number addr.number)
    else
      .ok (tbl.find? fun r => sqlEqOpt r.uuid addr.uuid)
  else if truthyNumber addr.number then
    .ok (tbl.find? fun r => sqlEqOpt r.number addr.number)
  else
    .error .invalidAddress

/-! ## Aggregate query: `Puppet.recently_active_count` -/

/-- SQL subtraction of nullable `BIGINT` columns: NULL propagates. -/
def sqlSub (a b : Option Int) : Option Int :=
  match a, b with
  | some x, some y => some (x - y)
  | _, _ => none

/-- SQL `a > b` on nullable integers: unknown (row not counted) when
either side is NULL. -/
def sqlGt (a b : Option Int) : Bool :=
  match a, b with
  | some x, some y => decide (x > y)
  | _, _ => false

/-- SQL `a <= b` on nullable integers: unknown when either side is NULL. -/
def sqlLe (a b : Option Int) : Bool :=
  match a, b with
  | some x, some y => decide (x ≤ y)
  | _, _ => false

/-- The `WHERE` clause of `recently_active_count`:
`(last_activity_ts - first_activity_ts) > $1` and, when
`max_activity_days` is given, `($2 - last_activity_ts) <= $3` with
`$2 = current_ms`. -/
def recentlyActivePred (r : Puppet) (current_ms : Int) (min_activity_days : Int)
    (max_activity_days : Option Int) : Bool :=
  sqlGt (sqlSub r.last_activity_ts r.first_activity_ts) (some (ONE_DAY_MS * min_activity_days)) &&
    match max_activity_days with
    | none => true
    | some m => sqlLe (sqlSub (some current_ms) r.last_activity_ts) (some (ONE_DAY_MS * m))

/-- `Puppet.recently_active_count(min_activity_days, max_activity_days)`:
`SELECT COUNT(*) FROM puppet WHERE ...` at wall-clock `current_ms`. -/
def recently_active_count (tbl : List Puppet) (current_ms : Int) (min_activity_days : Int)
    (max_activity_days : Option Int) : Nat :=
  (tbl.filter fun r => recentlyActivePred r current_ms min_activity_days max_activity_days).length

/-- Spec-side reading of the `recently_active_count` filter, following the
spec's words: the activity span `last - first` strictly exceeds
`min_days` days in milliseconds and, when `max_days` is given,
`now - last` is at most `max_days` days; a record with either timestamp
unset is not counted. -/
def activeSpanSpec (r : Puppet) (current_ms min_days : Int) (max_days : Option Int) : Bool :=
  match r.first_activity_ts, r.last_activity_ts with
  | some f, some l =>
    decide (l - f > min_days * ONE_DAY_MS) &&
      (match max_days with
       | none => true
       | some m => decide (current_ms - l ≤ m * ONE_DAY_MS))
  | _, _ => false

/-- Running maximum of the activity timestamps accepted by the staleness
check: a call more than 5 minutes behind its own wall clock is skipped,
any other call's timestamp joins the maximum. -/
def freshMaxAcc (acc : Option Int) (c : ActivityCall) : Option Int :=
  if c.now_ms - c.activity_ts > 300000 then acc
  else
    some (match acc with
          | none => c.activity_ts
          | some a => max a c.activity_ts)

/-! ## Helper lemmas -/

theorem sqlEqOpt_none_right (a : Option Str) : sqlEqOpt a none = false := by
  cases a <;> rfl

theorem sqlEqOpt_some_right (a : Option Str) (v : Str) :
    sqlEqOpt a (some v) = true ↔ a = some v := by
  cases a <;> simp [sqlEqOpt]

theorem map_fix {α : Type} {l : List α} {f : α → α} (h : ∀ a ∈ l, f a = a) : l.map f = l := by
  calc l.map f = l.map id := List.map_congr_left h
  _ = l := List.map_id l

theorem sqlEqOpt_true_sqlNeOpt_false {a b : Option Str} (h : sqlEqOpt a b = true) :
    sqlNeOpt a b = false := by
  cases a <;> cases b <;> simp_all [sqlEqOpt, sqlNeOpt]

/-- A delete-then-update pass `(l.filter g).map f` is idempotent when
`f` is pointwise idempotent and preserves the kept predicate `g`. -/
theorem step_idem {α : Type} (l : List α) (g : α → Bool) (f : α → α)
    (hgf : ∀ a, g a = true → g (f a) = true)
    (hff : ∀ a, f (f a) = f a) :
    (((l.filter g).map f).filter g).map f = (l.filter g).map f := by
  have hkeep : ∀ a ∈ (l.filter g).map f, g a = true := by
    intro a ha
    rw [List.mem_map] at ha
    obtain ⟨s, hs, rfl⟩ := ha
    exact hgf s (List.mem_filter.mp hs).2
  rw [List.filter_eq_self.mpr hkeep, List.map_map]
  exact List.map_congr_left fun a _ => hff a

theorem map_idem {α : Type} (l : List α) (f : α → α) (hff : ∀ a, f (f a) = f a) :
    (l.map f).map f = l.map f := by
  rw [List.map_map]
  exact List.map_congr_left fun a _ => hff a

/-- After a portal repoint, no surviving row both matches the old key
and differs from the new key, so a second repoint sees no conflict. -/
theorem portalConflict_after_repoint (l : List PortalRow) (old : Option Str) (newv : Str) :
    portalConflict (portal_repoint l old newv) old newv = false := by
  have hall : ∀ r ∈ portal_repoint l old newv,
      (sqlEqParam r.chat_id old && !(decide (r.chat_id = newv))) = false := by
    intro r hr
    unfold portal_repoint at hr
    by_cases hc : portalConflict l old newv = true
    · rw [if_pos hc] at hr
      have hkept := (List.mem_filter.mp hr).2
      have : sqlEqParam r.chat_id old = false := by
        revert hkept; cases sqlEqParam r.chat_id old <;> simp
      rw [this, Bool.false_and]
    · rw [if_neg hc] at hr
      rw [List.mem_map] at hr
      obtain ⟨s, hsmem, rfl⟩ := hr
      by_cases hs : sqlEqParam s.chat_id old = true
      · rw [if_pos hs]
        show (sqlEqParam newv old && !(decide ((newv : Str) = newv))) = false
        simp
      · rw [if_neg hs, Bool.eq_false_iff.mpr hs, Bool.false_and]
  have h1 : (portal_repoint l old newv).any
      (fun r => sqlEqParam r.chat_id old && !(decide (r.chat_id = newv))) = false := by
    rw [List.any_eq_false]
    intro r hr
    simp [hall r hr]
  rw [portalConflict, h1, Bool.false_and]

theorem portal_repoint_idem (l : List PortalRow) (old : Option Str) (newv : Str) :
    portal_repoint (portal_repoint l old newv) old newv = portal_repoint l old newv := by
  have hnc := portalConflict_after_repoint l old newv
  by_cases hc : portalConflict l old newv = true
  · have h1 : portal_repoint l old newv = l.filter fun r => !(sqlEqParam r.chat_id old) := by
      unfold portal_repoint
      rw [if_pos hc]
    rw [h1] at hnc ⊢
    unfold portal_repoint
    rw [if_neg (by simp [hnc])]
    apply map_fix
    intro r hr
    have hq : sqlEqParam r.chat_id old = false := by
      have hkept := (List.mem_filter.mp hr).2
      revert hkept
      cases sqlEqParam r.chat_id old <;> simp
    rw [if_neg (by simp [hq])]
  · have hc' : portalConflict l old newv = false := Bool.eq_false_iff.mpr hc
    have h1 : portal_repoint l old newv =
        l.map fun r => if sqlEqParam r.chat_id old then { r with chat_id := newv } else r := by
      unfold portal_repoint
      rw [if_neg (by simp [hc'])]
    rw [h1] at hnc ⊢
    unfold portal_repoint
    rw [if_neg (by simp [hnc])]
    apply map_fix
    intro r hr
    rw [List.mem_map] at hr
    obtain ⟨s, hsmem, rfl⟩ := hr
    by_cases hs : sqlEqParam s.chat_id old = true
    · rw [if_pos hs]
      show (if sqlEqParam newv old = true then ({ s with chat_id := newv } : PortalRow)
          else { s with chat_id := newv }) = { s with chat_id := newv }
      exact ite_self _
    · rw [if_neg hs, if_neg hs]

theorem truthyUuid_iff (a : Option Str) : truthyUuid a = true ↔ ∃ u, a = some u := by
  cases a <;> simp [truthyUuid]

theorem truthyNumber_true {a : Option Str} (h : truthyNumber a = true) : ∃ s, a = some s := by
  cases a with
  | none => simp [truthyNumber] at h
  | some s => exact ⟨s, rfl⟩

theorem recentlyActivePred_eq_spec (r : Puppet) (current_ms min_days : Int)
    (max_days : Option Int) :
    recentlyActivePred r current_ms min_days max_days =
      activeSpanSpec r current_ms min_days max_days := by
  unfold recentlyActivePred activeSpanSpec sqlGt sqlSub sqlLe
  rcases r.first_activity_ts with _ | f <;> rcases r.last_activity_ts with _ | l <;>
    cases max_days <;> simp [Int.mul_comm]

/-- A record with every field null/false, used by concrete instances. -/
def emptyPuppet : Puppet :=
  { uuid := none, number := none, name := none, avatar_hash := none, avatar_url := none,
    name_set := false, avatar_set := false, uuid_registered := false, number_registered := false,
    custom_mxid := none, access_token := none, next_batch := none, base_url := none,
    first_activity_ts := none, last_activity_ts := none }

/-- An empty database, used by concrete instances. -/
def emptyDb : DbState := { puppet := [], portal := [], message := [], reaction := [] }

theorem update_activity_ts_last (now_ms : Int) (p : Puppet) (db : DbState) (ts : Int) :
    (update_activity_ts now_ms p db ts).1.last_activity_ts =
      freshMaxAcc p.last_activity_ts ⟨now_ms, ts⟩ := by
  unfold update_activity_ts freshMaxAcc
  by_cases hs : now_ms - ts > 300000
  · simp [hs]
  · rw [if_neg hs, if_neg hs]
    cases hl : p.last_activity_ts with
    | none =>
      simp only [lastExceeds, Bool.false_eq_true, if_false]
      by_cases hf : p.first_activity_ts = none <;> simp [hf]
    | some l =>
      by_cases hgt : l > ts
      · have : lastExceeds (some l) ts = true := by simp [lastExceeds, hgt]
        rw [this, if_pos rfl, hl]
        have : max l ts = l := max_eq_left (le_of_lt hgt)
        simp [this]
      · have : lastExceeds (some l) ts = false := by simp [lastExceeds, hgt]
        rw [this]
        have hmax : max l ts = ts := max_eq_right (le_of_not_lt hgt)
        by_cases hf : p.first_activity_ts = none <;> simp [hf, hmax]

theorem update_activity_ts_first_some (now_ms : Int) (p : Puppet) (db : DbState) (ts v : Int)
    (hf : p.first_activity_ts = some v) :
    (update_activity_ts now_ms p db ts).1.first_activity_ts = some v := by
  unfold update_activity_ts
  by_cases hs : now_ms - ts > 300000
  · simp [hs, hf]
  · rw [if_neg hs]
    cases hb : lastExceeds p.last_activity_ts ts
    · simp [hf]
    · simp [hf]

theorem runActivity_last (calls : List ActivityCall) :
    ∀ st : Puppet × DbState,
      (runActivity st calls).1.last_activity_ts =
        calls.foldl freshMaxAcc st.1.last_activity_ts := by
  induction calls with
  | nil => intro st; rfl
  | cons c cs ih =>
    intro st
    show (runActivity (update_activity_ts c.now_ms st.1 st.2 c.activity_ts) cs).1.last_activity_ts
      = _
    rw [ih, update_activity_ts_last, List.foldl_cons]

theorem runActivity_first_some (calls : List ActivityCall) (v : Int) :
    ∀ st : Puppet × DbState, st.1.first_activity_ts = some v →
      (runActivity st calls).1.first_activity_ts = some v := by
  induction calls with
  | nil => intro st h; exact h
  | cons c cs ih =>
    intro st h
    show (runActivity (update_activity_ts c.now_ms st.1 st.2 c.activity_ts) cs).1.first_activity_ts
      = _
    exact ih _ (update_activity_ts_first_some c.now_ms st.1 st.2 c.activity_ts v h)

/-! ## Theorems for the claims -/

/-- C6 counterexample: a single call whose timestamp (500) is more than
5 minutes behind the wall clock at the call (1000000) changes no state,
so afterwards `last_activity_ts` is still `none` and not `some 500`, the
maximum of all timestamps seen — refuting the claim that after any
sequence of calls `last_activity_ts` equals the maximum of all
timestamps seen so far. -/
theorem claim_C6_counterexample :
    (1000000 : Int) - 500 > 300000 ∧
      (runActivity (emptyPuppet, emptyDb) [⟨1000000, 500⟩]).1.last_activity_ts ≠ some 500 := by
  constructor
  · decide
  · decide

/-- C6 (amended): `update_activity_ts` is monotonic: after any sequence
of calls, `last_activity_ts` equals the running maximum of the record's
initial `last_activity_ts` and the timestamps of the fresh calls (those
at most 5 minutes behind the wall clock at their call); a call whose
timestamp is more than 5 minutes behind the wall clock at the call, or
smaller than the record's current `last_activity_ts`, changes no state
at all. -/
theorem claim_C6_amended_activity_monotonic :
    (∀ (p : Puppet) (db : DbState) (calls : List ActivityCall),
      (runActivity (p, db) calls).1.last_activity_ts =
        calls.foldl freshMaxAcc p.last_activity_ts)
    ∧ (∀ (p : Puppet) (db : DbState) (now_ms ts : Int), now_ms - ts > 300000 →
        update_activity_ts now_ms p db ts = (p, db))
    ∧ (∀ (p : Puppet) (db : DbState) (now_ms ts l : Int), p.last_activity_ts = some l →
        ts < l → update_activity_ts now_ms p db ts = (p, db)) := by
  refine ⟨?_, ?_, ?_⟩
  · intro p db calls
    exact runActivity_last calls (p, db)
  · intro p db now_ms ts h
    unfold update_activity_ts
    rw [if_pos h]
  · intro p db now_ms ts l hl hlt
    unfold update_activity_ts
    by_cases hs : now_ms - ts > 300000
    · rw [if_pos hs]
    · rw [if_neg hs]
      have : lastExceeds p.last_activity_ts ts = true := by simp [lastExceeds, hl, hlt]
      rw [this, if_pos rfl]

/-- Witness for C6 (amended) at concrete inputs: a stale call is a
no-op, a backward call is a no-op, and a two-call sequence ends at the
running maximum of the fresh timestamps. -/
theorem claim_C6_amended_activity_monotonic_witness :
    update_activity_ts 1000000 emptyPuppet emptyDb 500 = (emptyPuppet, emptyDb)
    ∧ update_activity_ts 1000
        { emptyPuppet with last_activity_ts := some 900 } emptyDb 800 =
        ({ emptyPuppet with last_activity_ts := some 900 }, emptyDb)
    ∧ (runActivity (emptyPuppet, emptyDb) [⟨1000, 900⟩, ⟨1100, 1000⟩]).1.last_activity_ts =
        [(⟨1000, 900⟩ : ActivityCall), ⟨1100, 1000⟩].foldl freshMaxAcc none :=
  ⟨claim_C6_amended_activity_monotonic.2.1 emptyPuppet emptyDb 1000000 500 (by decide),
   claim_C6_amended_activity_monotonic.2.2
     { emptyPuppet with last_activity_ts := some 900 } emptyDb 1000 800 900 rfl (by decide),
   claim_C6_amended_activity_monotonic.1 emptyPuppet emptyDb [⟨1000, 900⟩, ⟨1100, 1000⟩]⟩

/-- C7: for a record whose `first_activity_ts` is unset, a call passing
both the staleness and monotonicity checks sets `first_activity_ts` to
that call's timestamp, a call failing either check leaves it unset, and
once `first_activity_ts` is set no later call ever changes it. -/
theorem claim_C7_first_activity_set_once :
    (∀ (p : Puppet) (db : DbState) (now_ms ts : Int),
      p.first_activity_ts = none → ¬ now_ms - ts > 300000 →
      lastExceeds p.last_activity_ts ts = false →
      (update_activity_ts now_ms p db ts).1.first_activity_ts = some ts)
    ∧ (∀ (p : Puppet) (db : DbState) (now_ms ts : Int),
      p.first_activity_ts = none →
      (now_ms - ts > 300000 ∨ lastExceeds p.last_activity_ts ts = true) →
      (update_activity_ts now_ms p db ts).1.first_activity_ts = none)
    ∧ (∀ (p : Puppet) (db : DbState) (v : Int) (calls : List ActivityCall),
      p.first_activity_ts = some v →
      (runActivity (p, db) calls).1.first_activity_ts = some v) := by
  refine ⟨?_, ?_, ?_⟩
  · intro p db now_ms ts hf hs hm
    unfold update_activity_ts
    rw [if_neg hs, hm]
    simp [hf]
  · intro p db now_ms ts hf h
    unfold update_activity_ts
    rcases h with h | h
    · rw [if_pos h]; exact hf
    · by_cases hs : now_ms - ts > 300000
      · rw [if_pos hs]; exact hf
      · rw [if_neg hs, h, if_pos rfl]; exact hf
  · intro p db v calls hf
    exact runActivity_first_some calls v (p, db) hf

/-- Witness for C7 at concrete inputs: a qualifying first call sets
`first_activity_ts = 900`, a stale call leaves it unset, and a later
sequence never changes a set value. -/
theorem claim_C7_first_activity_set_once_witness :
    (update_activity_ts 1000 emptyPuppet emptyDb 900).1.first_activity_ts = some 900
    ∧ (update_activity_ts 1000000 emptyPuppet emptyDb 500).1.first_activity_ts = none
    ∧ (runActivity ({ emptyPuppet with first_activity_ts := some 900 }, emptyDb)
        [⟨2000, 1500⟩, ⟨3000, 2500⟩]).1.first_activity_ts = some 900 :=
  ⟨claim_C7_first_activity_set_once.1 emptyPuppet emptyDb 1000 900 rfl (by decide) rfl,
   claim_C7_first_activity_set_once.2.1 emptyPuppet emptyDb 1000000 500 rfl (Or.inl (by decide)),
   claim_C7_first_activity_set_once.2.2 { emptyPuppet with first_activity_ts := some 900 }
     emptyDb 900 [⟨2000, 1500⟩, ⟨3000, 2500⟩] rfl⟩

/-- C4: `assignUniqueId` is idempotent: running `_set_uuid` a second
time with the same record (same in-memory `number`) and the same new
uuid leaves the puppet table and all dependent conversation / message /
reaction tables exactly as after the first run. -/
theorem claim_C4_set_uuid_idempotent (db : DbState) (number : Option Str) (uuid : Str) :
    set_uuid (set_uuid db number uuid) number uuid = set_uuid db number uuid := by
  refine DbState.ext ?_ ?_ ?_ ?_
  · show puppet_delete_update_uuid (puppet_delete_update_uuid db.puppet number uuid) number uuid
      = puppet_delete_update_uuid db.puppet number uuid
    unfold puppet_delete_update_uuid
    refine step_idem _ _ _ ?_ ?_
    · intro a ha
      by_cases hc : sqlEqOpt a.number number = true
      · rw [if_pos hc]
        have h2 : sqlNeOpt a.number number = false := sqlEqOpt_true_sqlNeOpt_false hc
        show (!(sqlEqOpt (some uuid) (some uuid) && sqlNeOpt a.number number)) = true
        rw [h2, Bool.and_false]
        rfl
      · rw [if_neg hc]
        exact ha
    · intro a
      by_cases hc : sqlEqOpt a.number number = true
      · rw [if_pos hc]
        show (if sqlEqOpt a.number number = true then ({ a with uuid := some uuid } : Puppet)
            else { a with uuid := some uuid }) = { a with uuid := some uuid }
        exact ite_self _
      · rw [if_neg hc, if_neg hc]
  · show portal_repoint (portal_repoint db.portal number uuid) number uuid
      = portal_repoint db.portal number uuid
    exact portal_repoint_idem _ _ _
  · show (db.message.map
        (fun m => if sqlEqParam m.sender number then { m with sender := uuid } else m)).map
        (fun m => if sqlEqParam m.sender number then { m with sender := uuid } else m) =
      db.message.map
        (fun m => if sqlEqParam m.sender number then { m with sender := uuid } else m)
    refine map_idem _ _ ?_
    intro a
    by_cases hs : sqlEqParam a.sender number = true
    · rw [if_pos hs]
      show (if sqlEqParam uuid number = true then ({ a with sender := uuid } : MessageRow)
          else { a with sender := uuid }) = { a with sender := uuid }
      exact ite_self _
    · rw [if_neg hs, if_neg hs]
  · show (db.reaction.map
        (fun r => if sqlEqParam r.author number then { r with author := uuid } else r)).map
        (fun r => if sqlEqParam r.author number then { r with author := uuid } else r) =
      db.reaction.map
        (fun r => if sqlEqParam r.author number then { r with author := uuid } else r)
    refine map_idem _ _ ?_
    intro a
    by_cases hs : sqlEqParam a.author number = true
    · rw [if_pos hs]
      show (if sqlEqParam uuid number = true then ({ a with author := uuid } : ReactionRow)
          else { a with author := uuid }) = { a with author := uuid }
      exact ite_self _
    · rw [if_neg hs, if_neg hs]

/-- C5: for every address with at least one truthy component,
`get_by_address` returns a record iff some stored record's `uuid` equals
the address's uuid (when present) or its `number` equals the address's
number (when present); an address with both components absent fails with
`InvalidAddress` (`ValueError` in the source). -/
theorem claim_C5_get_by_address (tbl : List Puppet) (addr : Address) :
    ((truthyUuid addr.uuid = true ∨ truthyNumber addr.number = true) →
      ((∃ r, get_by_address tbl addr = Except.ok (some r)) ↔
        ∃ r ∈ tbl,
          (truthyUuid addr.uuid = true ∧ r.uuid = addr.uuid) ∨
            (truthyNumber addr.number = true ∧ r.number = addr.number)))
    ∧ (truthyUuid addr.uuid = false → truthyNumber addr.number = false →
        get_by_address tbl addr = Except.error LookupError.invalidAddress) := by
  obtain ⟨au, an⟩ := addr
  have hfind : ∀ q : Puppet → Bool,
      (∃ r, (Except.ok (tbl.find? q) : Except LookupError (Option Puppet)) =
          Except.ok (some r)) ↔ ∃ r ∈ tbl, q r = true := by
    intro q
    constructor
    · rintro ⟨r, hr⟩
      have hr' : tbl.find? q = some r := by injection hr
      exact List.find?_isSome.mp (by rw [hr']; rfl)
    · intro h
      obtain ⟨r, hr⟩ := Option.isSome_iff_exists.mp (List.find?_isSome.mpr h)
      exact ⟨r, by rw [hr]⟩
  constructor
  · intro hpresent
    by_cases hu : truthyUuid au = true
    · obtain ⟨u, rfl⟩ := (truthyUuid_iff au).mp hu
      by_cases hn : truthyNumber an = true
      · obtain ⟨s, rfl⟩ := truthyNumber_true hn
        show (∃ r, (if truthyUuid (some u) = true then
            if truthyNumber (some s) = true then
              Except.ok (tbl.find? fun r =>
                sqlEqOpt r.uuid (some u) || sqlEqOpt r.number (some s))
            else Except.ok (tbl.find? fun r => sqlEqOpt r.uuid (some u))
          else if truthyNumber (some s) = true then
            Except.ok (tbl.find? fun r => sqlEqOpt r.number (some s))
          else Except.error LookupError.invalidAddress) = Except.ok (some r)) ↔ _
        rw [if_pos hu, if_pos hn, hfind]
        refine exists_congr fun r => and_congr_right fun _ => ?_
        rw [Bool.or_eq_true, sqlEqOpt_some_right, sqlEqOpt_some_right]
        simp [hu, hn]
      · have hn' : truthyNumber an = false := by revert hn; cases truthyNumber an <;> simp
        show (∃ r, (if truthyUuid (some u) = true then
            if truthyNumber an = true then
              Except.ok (tbl.find? fun r => sqlEqOpt r.uuid (some u) || sqlEqOpt r.number an)
            else Except.ok (tbl.find? fun r => sqlEqOpt r.uuid (some u))
          else if truthyNumber an = true then
            Except.ok (tbl.find? fun r => sqlEqOpt r.number an)
          else Except.error LookupError.invalidAddress) = Except.ok (some r)) ↔ _
        rw [if_pos hu, if_neg (by simp [hn']), hfind]
        refine exists_congr fun r => and_congr_right fun _ => ?_
        rw [sqlEqOpt_some_right]
        simp [hu, hn']
    · have hu' : truthyUuid au = false := by revert hu; cases truthyUuid au <;> simp
      have hn : truthyNumber an = true := by
        rcases hpresent with h | h
        · exact absurd h hu
        · exact h
      obtain ⟨s, rfl⟩ := truthyNumber_true hn
      show (∃ r, (if truthyUuid au = true then
          if truthyNumber (some s) = true then
            Except.ok (tbl.find? fun r => sqlEqOpt r.uuid au || sqlEqOpt r.number (some s))
          else Except.ok (tbl.find? fun r => sqlEqOpt r.uuid au)
        else if truthyNumber (some s) = true then
          Except.ok (tbl.find? fun r => sqlEqOpt r.number (some s))
        else Except.error LookupError.invalidAddress) = Except.ok (some r)) ↔ _
      rw [if_neg (by simp [hu']), if_pos hn, hfind]
      refine exists_congr fun r => and_congr_right fun _ => ?_
      rw [sqlEqOpt_some_right]
      simp [hu', hn]
  · intro hu hn
    show (if truthyUuid au = true then
        if truthyNumber an = true then
          Except.ok (tbl.find? fun r => sqlEqOpt r.uuid au || sqlEqOpt r.number an)
        else Except.ok (tbl.find? fun r => sqlEqOpt r.uuid au)
      else if truthyNumber an = true then
        Except.ok (tbl.find? fun r => sqlEqOpt r.number an)
      else Except.error LookupError.invalidAddress) = Except.error LookupError.invalidAddress
    rw [if_neg (by simp [hu]), if_neg (by simp [hn])]

/-- Witness for C5: on a one-record table a number-only address finds
the record, and the empty address fails with `InvalidAddress`. -/
theorem claim_C5_get_by_address_witness :
    (∃ r, get_by_address [{ emptyPuppet with uuid := some "U1", number := some "+1555" }]
        { uuid := none, number := some "+1555" } = Except.ok (some r))
    ∧ get_by_address [{ emptyPuppet with uuid := some "U1", number := some "+1555" }]
        { uuid := none, number := none } = Except.error LookupError.invalidAddress :=
  ⟨((claim_C5_get_by_address
        [{ emptyPuppet with uuid := some "U1", number := some "+1555" }]
        { uuid := none, number := some "+1555" }).1 (Or.inr (by decide))).mpr
      ⟨{ emptyPuppet with uuid := some "U1", number := some "+1555" },
        List.mem_singleton.mpr rfl, Or.inr ⟨by decide, rfl⟩⟩,
   (claim_C5_get_by_address [{ emptyPuppet with uuid := some "U1", number := some "+1555" }]
        { uuid := none, number := none }).2 rfl rfl⟩

/-- C1 counterexample: record A (`number="+1555"`, `uuid=null`) and
record B (`uuid="U1"`, `number="+1999"`), with a conversation row keyed
`"+1555"` (payload 0) and one keyed `"U1"` (payload 1). A successful
`assignUniqueId(A, "U1")` deletes the conversation row keyed by A's old
number instead of repointing it (the conversation under `"U1"` already
exists), so no conversation row with payload 0 survives — refuting the
claim that all dependent conversation rows keyed by A's old number are
repointed to the new id. -/
theorem claim_C1_counterexample :
    (set_uuid
        { puppet := [{ emptyPuppet with number := some "+1555" },
                     { emptyPuppet with uuid := some "U1", number := some "+1999" }],
          portal := [⟨"+1555", 0⟩, ⟨"U1", 1⟩], message := [], reaction := [] }
        (some "+1555") "U1").portal = [⟨"U1", 1⟩]
    ∧ (⟨"U1", 0⟩ : PortalRow) ∉ (set_uuid
        { puppet := [{ emptyPuppet with number := some "+1555" },
                     { emptyPuppet with uuid := some "U1", number := some "+1999" }],
          portal := [⟨"+1555", 0⟩, ⟨"U1", 1⟩], message := [], reaction := [] }
        (some "+1555") "U1").portal := by
  constructor
  · decide
  · decide

/-- C1 (amended): for a record A with `number = n` and no uuid, and any
other stored record B whose `uuid` equals the new id X and whose number
differs from `n`, `assignUniqueId(A, X)` deletes B, sets A's uuid to X
leaving its number unchanged, repoints all dependent message and
reaction rows keyed by `n` to X, and likewise repoints the conversation
rows keyed by `n` — unless a conversation keyed by X already exists, in
which case the conversation rows keyed by `n` are deleted instead. -/
theorem claim_C1_amended (db : DbState) (A B : Puppet) (n m X : Str)
    (hAnum : A.number = some n) (hAuuid : A.uuid = none) (hAmem : A ∈ db.puppet)
    (_hBmem : B ∈ db.puppet) (hBuuid : B.uuid = some X) (hBnum : B.number = some m)
    (hmn : m ≠ n) :
    B ∉ (set_uuid db (some n) X).puppet
    ∧ { A with uuid := some X } ∈ (set_uuid db (some n) X).puppet
    ∧ (set_uuid db (some n) X).message =
        db.message.map
          (fun mr => if sqlEqParam mr.sender (some n) then { mr with sender := X } else mr)
    ∧ (set_uuid db (some n) X).reaction =
        db.reaction.map
          (fun rr => if sqlEqParam rr.author (some n) then { rr with author := X } else rr)
    ∧ (portalConflict db.portal (some n) X = false →
        (set_uuid db (some n) X).portal =
          db.portal.map
            (fun pr => if sqlEqParam pr.chat_id (some n) then { pr with chat_id := X } else pr))
    ∧ (portalConflict db.portal (some n) X = true →
        (set_uuid db (some n) X).portal =
          db.portal.filter fun pr => !(sqlEqParam pr.chat_id (some n))) := by
  refine ⟨?_, ?_, rfl, rfl, ?_, ?_⟩
  · show B ∉ puppet_delete_update_uuid db.puppet (some n) X
    intro hmem
    rw [puppet_delete_update_uuid, List.mem_map] at hmem
    obtain ⟨s, hs, hfs⟩ := hmem
    rw [List.mem_filter] at hs
    obtain ⟨hsl, hgs⟩ := hs
    by_cases hc : sqlEqOpt s.number (some n) = true
    · rw [if_pos hc] at hfs
      have hnum : B.number = s.number := by rw [← hfs]
      rw [(sqlEqOpt_some_right _ _).mp hc, hBnum] at hnum
      exact hmn (by injection hnum)
    · rw [if_neg hc] at hfs
      rw [hfs] at hgs
      have h1 : sqlEqOpt B.uuid (some X) = true := by rw [hBuuid]; simp [sqlEqOpt]
      have h2 : sqlNeOpt B.number (some n) = true := by rw [hBnum]; simp [sqlNeOpt, hmn]
      rw [h1, h2] at hgs
      simp at hgs
  · show { A with uuid := some X } ∈ puppet_delete_update_uuid db.puppet (some n) X
    rw [puppet_delete_update_uuid, List.mem_map]
    refine ⟨A, List.mem_filter.mpr ⟨hAmem, ?_⟩, ?_⟩
    · rw [hAuuid]
      rfl
    · rw [if_pos (by rw [hAnum]; simp [sqlEqOpt])]
  · intro hconf
    show portal_repoint db.portal (some n) X = _
    rw [portal_repoint, if_neg (by simp [hconf])]
  · intro hconf
    show portal_repoint db.portal (some n) X = _
    rw [portal_repoint, if_pos hconf]

/-- Witness for C1 (amended) on a concrete state with no conversation
conflict: B is deleted, A gains the uuid, and the message row keyed by
A's old number is repointed. -/
theorem claim_C1_amended_witness :
    ({ emptyPuppet with uuid := some "U1", number := some "+1999" } : Puppet) ∉
      (set_uuid
        { puppet := [{ emptyPuppet with number := some "+1555" },
                     { emptyPuppet with uuid := some "U1", number := some "+1999" }],
          portal := [], message := [⟨"+1555", 5⟩], reaction := [] }
        (some "+1555") "U1").puppet
    ∧ ({ emptyPuppet with uuid := some "U1", number := some "+1555" } : Puppet) ∈
      (set_uuid
        { puppet := [{ emptyPuppet with number := some "+1555" },
                     { emptyPuppet with uuid := some "U1", number := some "+1999" }],
          portal := [], message := [⟨"+1555", 5⟩], reaction := [] }
        (some "+1555") "U1").puppet
    ∧ (set_uuid
        { puppet := [{ emptyPuppet with number := some "+1555" },
                     { emptyPuppet with uuid := some "U1", number := some "+1999" }],
          portal := [], message := [⟨"+1555", 5⟩], reaction := [] }
        (some "+1555") "U1").message = [⟨"U1", 5⟩] := by
  have h := claim_C1_amended
    { puppet := [{ emptyPuppet with number := some "+1555" },
                 { emptyPuppet with uuid := some "U1", number := some "+1999" }],
      portal := [], message := [⟨"+1555", 5⟩], reaction := [] }
    { emptyPuppet with number := some "+1555" }
    { emptyPuppet with uuid := some "U1", number := some "+1999" }
    "+1555" "+1999" "U1" rfl rfl (by decide) (by decide) rfl rfl (by decide)
  exact ⟨h.1, by simpa using h.2.1, h.2.2.1.trans (by decide)⟩

/-- C2: in `_update_number_to_uuid`, when repointing the conversation
(portal) rows from the old key to the new key would violate the
uniqueness constraint on `chat_id` (a row already moved would land on an
existing `chat_id`), the portal rows referencing the old key are deleted
instead, without aborting the transaction; the message and reaction rows
are then unconditionally repointed; and the portal table's final state
is exactly the state after the conversation stage — the conversation
repoint (with its fallback) completes before and is unaffected by the
message/reaction repoints. -/
theorem claim_C2_repoint_conflict_fallback (db : DbState) (old_number : Option Str)
    (new_uuid : Str) :
    ((∃ r ∈ db.portal, sqlEqParam r.chat_id old_number = true ∧ r.chat_id ≠ new_uuid) →
      (∃ r ∈ db.portal, r.chat_id = new_uuid) →
      (update_number_to_uuid db old_number new_uuid).portal =
        db.portal.filter fun r => !(sqlEqParam r.chat_id old_number))
    ∧ (update_number_to_uuid db old_number new_uuid).message =
        db.message.map
          (fun m => if sqlEqParam m.sender old_number then { m with sender := new_uuid } else m)
    ∧ (update_number_to_uuid db old_number new_uuid).reaction =
        db.reaction.map
          (fun r => if sqlEqParam r.author old_number then { r with author := new_uuid } else r)
    ∧ (update_number_to_uuid db old_number new_uuid).portal =
        (portal_stage db old_number new_uuid).portal := by
  refine ⟨?_, rfl, rfl, rfl⟩
  intro h1 h2
  have hconf : portalConflict db.portal old_number new_uuid = true := by
    rw [portalConflict, Bool.and_eq_true, List.any_eq_true, List.any_eq_true]
    obtain ⟨r, hr, hq, hne⟩ := h1
    obtain ⟨r2, hr2, he⟩ := h2
    exact ⟨⟨r, hr, by simp [hq, hne]⟩, ⟨r2, hr2, by simp [he]⟩⟩
  show portal_repoint db.portal old_number new_uuid = _
  rw [portal_repoint, if_pos hconf]

/-- Witness for C2: with portal rows keyed `"+1555"` and `"U1"`, the
repoint to `"U1"` deletes the `"+1555"` conversation row and still
repoints the message row. -/
theorem claim_C2_repoint_conflict_fallback_witness :
    (update_number_to_uuid
        { puppet := [], portal := [⟨"+1555", 0⟩, ⟨"U1", 1⟩],
          message := [⟨"+1555", 7⟩], reaction := [] }
        (some "+1555") "U1").portal = [⟨"U1", 1⟩]
    ∧ (update_number_to_uuid
        { puppet := [], portal := [⟨"+1555", 0⟩, ⟨"U1", 1⟩],
          message := [⟨"+1555", 7⟩], reaction := [] }
        (some "+1555") "U1").message = [⟨"U1", 7⟩] := by
  have h := claim_C2_repoint_conflict_fallback
    { puppet := [], portal := [⟨"+1555", 0⟩, ⟨"U1", 1⟩],
      message := [⟨"+1555", 7⟩], reaction := [] }
    (some "+1555") "U1"
  refine ⟨(h.1 ⟨⟨"+1555", 0⟩, by decide, by decide, by decide⟩
      ⟨⟨"U1", 1⟩, by decide, rfl⟩).trans (by decide), h.2.1.trans (by decide)⟩

/-- C3 counterexample: record A has `uuid="U1"`, `number="+1555"`, and a
message row is keyed by A's old number `"+1555"`. After
`assignNumber(A, "+1999")` the message row still carries `"+1555"` — it
is not repointed to the record's unique id, because the code repoints
rows keyed by the NEW number, not the old one. This refutes the claim
that dependents keyed by the record's old number are repointed. -/
theorem claim_C3_counterexample :
    (set_number
        { puppet := [{ emptyPuppet with uuid := some "U1", number := some "+1555" }],
          portal := [], message := [⟨"+1555", 0⟩], reaction := [] }
        (some "U1") "+1999").message = [⟨"+1555", 0⟩]
    ∧ (⟨"U1", 0⟩ : MessageRow) ∉ (set_number
        { puppet := [{ emptyPuppet with uuid := some "U1", number := some "+1555" }],
          portal := [], message := [⟨"+1555", 0⟩], reaction := [] }
        (some "U1") "+1999").message := by
  constructor
  · decide
  · decide

/-- C3 (amended): for a record A with `uuid = u`, `assignNumber(A,
newNumber)` deletes any other stored record holding `newNumber` under a
different uuid, sets A's number to `newNumber` (selected by its
unchanged uuid), repoints dependent message and reaction rows keyed by
the NEW number to A's uuid, and likewise repoints conversation rows
keyed by the new number — unless a conversation keyed by the uuid
already exists, in which case those conversation rows are deleted
instead. -/
theorem claim_C3_amended (db : DbState) (A B : Puppet) (u w newNumber : Str)
    (hAuuid : A.uuid = some u) (hAmem : A ∈ db.puppet)
    (_hBmem : B ∈ db.puppet) (hBnum : B.number = some newNumber) (hBuuid : B.uuid = some w)
    (hwu : w ≠ u) :
    B ∉ (set_number db (some u) newNumber).puppet
    ∧ { A with number := some newNumber } ∈ (set_number db (some u) newNumber).puppet
    ∧ (set_number db (some u) newNumber).message =
        db.message.map
          (fun mr =>
            if sqlEqParam mr.sender (some newNumber) then { mr with sender := u } else mr)
    ∧ (set_number db (some u) newNumber).reaction =
        db.reaction.map
          (fun rr =>
            if sqlEqParam rr.author (some newNumber) then { rr with author := u } else rr)
    ∧ (portalConflict db.portal (some newNumber) u = false →
        (set_number db (some u) newNumber).portal =
          db.portal.map
            (fun pr =>
              if sqlEqParam pr.chat_id (some newNumber) then { pr with chat_id := u } else pr))
    ∧ (portalConflict db.portal (some newNumber) u = true →
        (set_number db (some u) newNumber).portal =
          db.portal.filter fun pr => !(sqlEqParam pr.chat_id (some newNumber))) := by
  refine ⟨?_, ?_, rfl, rfl, ?_, ?_⟩
  · show B ∉ puppet_delete_update_number db.puppet (some u) newNumber
    intro hmem
    rw [puppet_delete_update_number, List.mem_map] at hmem
    obtain ⟨s, hs, hfs⟩ := hmem
    rw [List.mem_filter] at hs
    obtain ⟨hsl, hgs⟩ := hs
    by_cases hc : sqlEqOpt s.uuid (some u) = true
    · rw [if_pos hc] at hfs
      have huu : B.uuid = s.uuid := by rw [← hfs]
      rw [(sqlEqOpt_some_right _ _).mp hc, hBuuid] at huu
      exact hwu (by injection huu)
    · rw [if_neg hc] at hfs
      rw [hfs] at hgs
      have h1 : sqlEqOpt B.number (some newNumber) = true := by rw [hBnum]; simp [sqlEqOpt]
      have h2 : sqlNeOpt B.uuid (some u) = true := by rw [hBuuid]; simp [sqlNeOpt, hwu]
      rw [h1, h2] at hgs
      simp at hgs
  · show { A with number := some newNumber } ∈ puppet_delete_update_number db.puppet (some u)
      newNumber
    rw [puppet_delete_update_number, List.mem_map]
    refine ⟨A, List.mem_filter.mpr ⟨hAmem, ?_⟩, ?_⟩
    · have h2 : sqlNeOpt A.uuid (some u) = false := by rw [hAuuid]; simp [sqlNeOpt]
      rw [h2, Bool.and_false]
      rfl
    · rw [if_pos (by rw [hAuuid]; simp [sqlEqOpt])]
  · intro hconf
    show portal_repoint db.portal (some newNumber) u = _
    rw [portal_repoint, if_neg (by simp [hconf])]
  · intro hconf
    show portal_repoint db.portal (some newNumber) u = _
    rw [portal_repoint, if_pos hconf]

/-- Witness for C3 (amended) on a concrete state: B (holding the new
number under uuid `"U2"`) is deleted, A's number becomes `"+1999"`, and
the message row keyed by the new number is repointed to `"U1"`. -/
theorem claim_C3_amended_witness :
    ({ emptyPuppet with uuid := some "U2", number := some "+1999" } : Puppet) ∉
      (set_number
        { puppet := [{ emptyPuppet with uuid := some "U1", number := some "+1555" },
                     { emptyPuppet with uuid := some "U2", number := some "+1999" }],
          portal := [], message := [⟨"+1999", 3⟩], reaction := [] }
        (some "U1") "+1999").puppet
    ∧ ({ emptyPuppet with uuid := some "U1", number := some "+1999" } : Puppet) ∈
      (set_number
        { puppet := [{ emptyPuppet with uuid := some "U1", number := some "+1555" },
                     { emptyPuppet with uuid := some "U2", number := some "+1999" }],
          portal := [], message := [⟨"+1999", 3⟩], reaction := [] }
        (some "U1") "+1999").puppet
    ∧ (set_number
        { puppet := [{ emptyPuppet with uuid := some "U1", number := some "+1555" },
                     { emptyPuppet with uuid := some "U2", number := some "+1999" }],
          portal := [], message := [⟨"+1999", 3⟩], reaction := [] }
        (some "U1") "+1999").message = [⟨"U1", 3⟩] := by
  have h := claim_C3_amended
    { puppet := [{ emptyPuppet with uuid := some "U1", number := some "+1555" },
                 { emptyPuppet with uuid := some "U2", number := some "+1999" }],
      portal := [], message := [⟨"+1999", 3⟩], reaction := [] }
    { emptyPuppet with uuid := some "U1", number := some "+1555" }
    { emptyPuppet with uuid := some "U2", number := some "+1999" }
    "U1" "U2" "+1999" rfl (by decide) (by decide) rfl rfl (by decide)
  exact ⟨h.1, by simpa using h.2.1, h.2.2.1.trans (by decide)⟩

/-- C9: `Puppet.update` performs a full-row update of the profile,
registration-flag and linked-account fields (plus the non-selector key),
but never writes `first_activity_ts` or `last_activity_ts`: every row of
the table keeps its activity timestamps unchanged. -/
theorem claim_C9_update_preserves_activity_ts (tbl : List Puppet) (p : Puppet) :
    (update tbl p).map (fun r => (r.first_activity_ts, r.last_activity_ts)) =
      tbl.map (fun r => (r.first_activity_ts, r.last_activity_ts)) := by
  cases h : p.uuid with
  | none =>
    simp only [update, h, List.map_map]
    refine List.map_congr_left ?_
    intro a _
    simp only [Function.comp_apply]
    split <;> simp [applySetColumns]
  | some u =>
    simp only [update, h, List.map_map]
    refine List.map_congr_left ?_
    intro a _
    simp only [Function.comp_apply]
    split <;> simp [applySetColumns]

/-- C8: `recently_active_count` counts exactly the records whose span
`last_activity_ts - first_activity_ts` strictly exceeds
`min_days` days in milliseconds and, when `max_days` is given, whose
`current_ms - last_activity_ts` is at most `max_days` days; in
particular with arguments `(30, none)` it counts 0 for a record with
`first = last` and 1 for a record whose span is 31 days. -/
theorem claim_C8_recently_active_count :
    (∀ (tbl : List Puppet) (current_ms min_days : Int) (max_days : Option Int),
      recently_active_count tbl current_ms min_days max_days =
        (tbl.filter fun r => activeSpanSpec r current_ms min_days max_days).length)
    ∧ (∀ (r : Puppet) (current_ms : Int), r.first_activity_ts = r.last_activity_ts →
        recently_active_count [r] current_ms 30 none = 0)
    ∧ (∀ (r : Puppet) (current_ms f : Int), r.first_activity_ts = some f →
        r.last_activity_ts = some (f + 31 * ONE_DAY_MS) →
        recently_active_count [r] current_ms 30 none = 1) := by
  refine ⟨?_, ?_, ?_⟩
  · intro tbl current_ms min_days max_days
    unfold recently_active_count
    congr 1
    exact List.filter_congr fun r _ => recentlyActivePred_eq_spec r current_ms min_days max_days
  · intro r current_ms h
    unfold recently_active_count
    rcases hl : r.last_activity_ts with _ | l <;>
      simp [recentlyActivePred, sqlGt, sqlSub, h, hl, ONE_DAY_MS]
  · intro r current_ms f hf hl
    unfold recently_active_count
    simp [recentlyActivePred, sqlGt, sqlSub, hf, hl, ONE_DAY_MS]

/-- Witness for C8 at a concrete table: a two-record table where one
record has `first = last` and the other has a 31-day span gives count 1,
and the spec-side filter agrees. -/
theorem claim_C8_recently_active_count_witness :
    recently_active_count
        [{ uuid := none, number := some "+1555", name := none, avatar_hash := none,
           avatar_url := none, name_set := false, avatar_set := false, uuid_registered := false,
           number_registered := false, custom_mxid := none, access_token := none,
           next_batch := none, base_url := none, first_activity_ts := some 100,
           last_activity_ts := some (100 + 31 * ONE_DAY_MS) }]
        0 30 none = 1 :=
  claim_C8_recently_active_count.2.2 _ 0 100 rfl rfl

/-- C10: `update_activity_ts` selects the persisted row by `uuid` only;
for a record whose `uuid` is null, a qualifying call updates the
in-memory `last_activity_ts` (and `first_activity_ts` when unset) but
leaves the database unchanged, because `WHERE uuid=NULL` matches no row. -/
theorem claim_C10_activity_null_uuid_no_db_write (p : Puppet) (db : DbState)
    (now_ms activity_ts : Int)
    (huuid : p.uuid = none)
    (hfresh : ¬ now_ms - activity_ts > 300000)
    (hmono : lastExceeds p.last_activity_ts activity_ts = false) :
    update_activity_ts now_ms p db activity_ts =
      ({ p with
          last_activity_ts := some activity_ts,
          first_activity_ts :=
            if p.first_activity_ts = none then some activity_ts
            else p.first_activity_ts }, db) := by
  unfold update_activity_ts
  rw [if_neg hfresh, hmono, huuid]
  simp only [sqlEqOpt_none_right, Bool.false_eq_true, if_false, List.map_id']
  by_cases hf : p.first_activity_ts = none
  · simp only [hf, if_pos rfl, if_true]
  · simp only [if_neg hf]

/-- Witness for C10: a concrete null-uuid record and non-empty database;
the call updates only the in-memory record. -/
theorem claim_C10_activity_null_uuid_no_db_write_witness :
    update_activity_ts 1000
      { uuid := none, number := some "+1555", name := none, avatar_hash := none,
        avatar_url := none, name_set := false, avatar_set := false, uuid_registered := false,
        number_registered := false, custom_mxid := none, access_token := none,
        next_batch := none, base_url := none, first_activity_ts := none,
        last_activity_ts := none }
      { puppet := [{ uuid := some "U1", number := none, name := none, avatar_hash := none,
                     avatar_url := none, name_set := false, avatar_set := false,
                     uuid_registered := false, number_registered := false, custom_mxid := none,
                     access_token := none, next_batch := none, base_url := none,
                     first_activity_ts := none, last_activity_ts := none }],
        portal := [], message := [], reaction := [] }
      900 =
      ({ uuid := none, number := some "+1555", name := none, avatar_hash := none,
         avatar_url := none, name_set := false, avatar_set := false, uuid_registered := false,
         number_registered := false, custom_mxid := none, access_token := none,
         next_batch := none, base_url := none, first_activity_ts := some 900,
         last_activity_ts := some 900 },
       { puppet := [{ uuid := some "U1", number := none, name := none, avatar_hash := none,
                      avatar_url := none, name_set := false, avatar_set := false,
                      uuid_registered := false, number_registered := false, custom_mxid := none,
                      access_token := none, next_batch := none, base_url := none,
                      first_activity_ts := none, last_activity_ts := none }],
         portal := [], message := [], reaction := [] }) := by
  have h := claim_C10_activity_null_uuid_no_db_write
    { uuid := none, number := some "+1555", name := none, avatar_hash := none,
      avatar_url := none, name_set := false, avatar_set := false, uuid_registered := false,
      number_registered := false, custom_mxid := none, access_token := none,
      next_batch := none, base_url := none, first_activity_ts := none,
      last_activity_ts := none }
    { puppet := [{ uuid := some "U1", number := none, name := none, avatar_hash := none,
                   avatar_url := none, name_set := false, avatar_set := false,
                   uuid_registered := false, number_registered := false, custom_mxid := none,
                   access_token := none, next_batch := none, base_url := none,
                   first_activity_ts := none, last_activity_ts := none }],
      portal := [], message := [], reaction := [] }
    1000 900 rfl (by decide) rfl
  simpa using h

end MautrixSignal
